import Mathlib

/-!
Verification of the `Arduino_EnvironmentMeter` sketch
(`src/EnvironmentMeter/EnvironmentMeter.ino`).

The sketch is a linear read-compute-format-render loop.  We shallowly embed
its computational content:

* machine floats are modelled by exact rationals `ℚ` — every numeric fact
  claimed about the sketch (the conversion formula, the threshold
  comparisons at 74.99 / 75 / 119.99 / 120, the value 82.5 at sample 2048,
  monotonicity) is insensitive to `float` rounding, and at the one concrete
  product claimed (`2048/4096*3.3f*50`) IEEE single rounding also yields
  exactly 82.5;
* Arduino `String` is modelled by Lean `String` (a packed list of
  characters), and the `while` loop of `padString` by well-founded
  recursion on the missing length;
* the C comparison `p_string->length() < p_length` between an unsigned
  length and a signed `int` is modelled explicitly by the usual-arithmetic
  conversion of the signed operand to a 32-bit unsigned value;
* the body of `loop()` is a pure function from the cycle's inputs (raw ADC
  samples, the strings the sensor library renders its float readings to,
  and the detection flag set once by `setup()`) to the strings it sends to
  the display and the serial port.  The rendering of a `float` by the
  Arduino core's `Print`/`String` classes is external-library behaviour
  and is passed in as an input string;
* `"Sensor error! " + g_bmeDetected` in the error branch of `loop()` is
  `const char* + int`, i.e. pointer arithmetic into the string literal; it
  is modelled by `cstrPlusInt`, which yields the suffix of the literal at
  that offset while the offset stays inside the literal (up to and
  including its terminating NUL) and is undefined (`none`) beyond.
-/

namespace EnvironmentMeter

/-- Constant `#define VREF 3.3` — reference voltage on the analog pin. -/
def VREF : ℚ := 33 / 10

/-- Constant `#define ADCResolution` — `4096.0` when `ESP32`/`STM32F4` (12-bit ADC)
is defined, `1024.0` otherwise (10-bit ADC).  The preprocessor branch is
modelled by a boolean board parameter. -/
def ADCResolution (twelveBit : Bool) : ℚ := if twelveBit then 4096 else 1024

/-- Constant `const float DB_CONV_MULTIPLIER = 50.0;` (local to
`getDecibelFromVoltage`). -/
def DB_CONV_MULTIPLIER : ℚ := 50

/-- Constant `const float THRESHOLD_MAX_GREEN = 75.0;` -/
def THRESHOLD_MAX_GREEN : ℚ := 75

/-- Constant `const float THRESHOLD_MAX_YELLOW = 120.0;` -/
def THRESHOLD_MAX_YELLOW : ℚ := 120

/-- Constant `const int BME_SENSOR_DETECTED_SENTINEL = 0x60;` -/
def BME_SENSOR_DETECTED_SENTINEL : Int := 0x60

/-- Color `#define COLOR_RGB565_GREEN 0x07E0` -/
def COLOR_RGB565_GREEN : Nat := 0x07E0

/-- Color `#define COLOR_RGB565_ORANGE 0xFD20` -/
def COLOR_RGB565_ORANGE : Nat := 0xFD20

/-- Color `#define COLOR_RGB565_RED 0xF800` -/
def COLOR_RGB565_RED : Nat := 0xF800

/-- Function `getDecibelFromVoltage()`:
`return (analogRead(SoundSensorPin) / ADCResolution * VREF) * DB_CONV_MULTIPLIER;`
with the raw ADC sample made an explicit argument. -/
def getDecibelFromVoltage (twelveBit : Bool) (sample : ℤ) : ℚ :=
  ((sample : ℚ) / ADCResolution twelveBit * VREF) * DB_CONV_MULTIPLIER

/-- The level formula as the spec words it:
`level = (sample / resolution * referenceVoltage) * CONVERSION_MULTIPLIER`
with `CONVERSION_MULTIPLIER = 50.0`.  Stated from the spec, to be compared
with `getDecibelFromVoltage`. -/
def spec_level (resolution referenceVoltage : ℚ) (sample : ℤ) : ℚ :=
  ((sample : ℚ) / resolution * referenceVoltage) * 50

/-- The three severity bands the spec names for the sound level. -/
inductive SeverityBand
  | Normal
  | Elevated
  | High
deriving DecidableEq, Repr

/-- The background-color selection in `loop()`:
`backColor` starts at green, becomes orange when
`dbValue >= THRESHOLD_MAX_GREEN && dbValue < THRESHOLD_MAX_YELLOW`, and
red when `dbValue >= THRESHOLD_MAX_YELLOW`. -/
def backColorOf (dbValue : ℚ) : Nat :=
  if THRESHOLD_MAX_GREEN ≤ dbValue ∧ dbValue < THRESHOLD_MAX_YELLOW then
    COLOR_RGB565_ORANGE
  else if THRESHOLD_MAX_YELLOW ≤ dbValue then
    COLOR_RGB565_RED
  else
    COLOR_RGB565_GREEN

/-- The same branch structure read as a severity classification
(green ↦ Normal, orange ↦ Elevated, red ↦ High). -/
def classify (dbValue : ℚ) : SeverityBand :=
  if THRESHOLD_MAX_GREEN ≤ dbValue ∧ dbValue < THRESHOLD_MAX_YELLOW then
    SeverityBand.Elevated
  else if THRESHOLD_MAX_YELLOW ≤ dbValue then
    SeverityBand.High
  else
    SeverityBand.Normal

/-- Function `padString(String *p_string, int p_length, char p_paddingChar)`:
`while (p_string->length() < p_length) p_string->concat(p_paddingChar);`
modelled with the loop bound already converted to an unsigned value
(see `padStringC` for the signed-to-unsigned conversion). -/
def padString (s : String) (n : Nat) (c : Char) : String :=
  if s.length < n then padString (s.push c) n c else s
termination_by n - s.length
decreasing_by simp only [String.length_push]; omega

/-- The number of iterations the `padString` loop performs. -/
def padStringIters (s : String) (n : Nat) (c : Char) : Nat :=
  if s.length < n then padStringIters (s.push c) n c + 1 else 0
termination_by n - s.length
decreasing_by simp only [String.length_push]; omega

/-- C usual-arithmetic conversion of a signed `int` to the 32-bit unsigned
type of `String::length()`, applied to the right operand of
`p_string->length() < p_length`. -/
def uintOfInt (n : Int) : Nat := (n % (2 ^ 32)).toNat

/-- Function `padString` exactly as typed in the sketch: the minimum length is a
signed `int`, converted to unsigned by the comparison. -/
def padStringC (s : String) (n : Int) (c : Char) : String :=
  padString s (uintOfInt n) c

/-- Literal `"Sensor error! "` — the string literal of the error branch of
`loop()`. -/
def SENSOR_ERROR_LITERAL : String := "Sensor error! "

/-- Pointer arithmetic `const char* + int` on a string literal, as
performed by `"Sensor error! " + g_bmeDetected`: defined (the suffix of
the literal starting at the offset) while the resulting pointer stays
within the literal, its terminating NUL included; undefined (`none`)
otherwise. -/
def cstrPlusInt (lit : String) (k : Int) : Option String :=
  if 0 ≤ k ∧ k ≤ (lit.length : Int) then some ⟨lit.data.drop k.toNat⟩
  else none

/-- The values one cycle of `loop()` obtains from its external
collaborators: the two raw ADC samples, the strings the BME280 library's
float readings are rendered to by `String::concat(float)`, and the
rendering of `dbValue` produced by the same Arduino core code (both for
`String += float` and for `Serial.println(float)`, which format a float
identically). -/
structure LoopInputs where
  dbSample : Int
  luminosity : Int
  tempReading : String
  humidityReading : String
  pressureReading : String
  altitudeReading : String
  dbRendered : String
deriving DecidableEq, Repr

/-- Everything one cycle of `loop()` computes and emits: the numeric
level, the background color handed to `displayString`, the five padded
reading strings, the text block drawn at (0, 100), and the lines written
to the serial port in order. -/
structure LoopState where
  dbValue : ℚ
  backColor : Nat
  dbValueString : String
  outputTemp : String
  outputHumidity : String
  outputPressure : String
  outputAltitude : String
  outputLum : String
  displayBlock : String
  serialLines : List String
deriving DecidableEq, Repr

/-- The body of `loop()` as a pure function of the detection flag set by
`setup()` and the cycle's sensor inputs.  `none` marks the undefined
behaviour of the error branch when `"Sensor error! " + g_bmeDetected`
points outside the string literal. -/
def loopBody (detected : Int) (inp : LoopInputs) : Option LoopState :=
  let dbValue := getDecibelFromVoltage true inp.dbSample
  let outputLum0 := "  Lum.:  " ++ toString inp.luminosity
  let fields :=
    if detected = BME_SENSOR_DETECTED_SENTINEL then
      some ("  Temp:  " ++ inp.tempReading ++ "C",
            "  RH:    " ++ inp.humidityReading ++ "%",
            "  Pres.: " ++ inp.pressureReading ++ "hPa",
            "  Alt.:  " ++ inp.altitudeReading ++ "m")
    else
      (cstrPlusInt SENSOR_ERROR_LITERAL detected).map (fun t => (t, "", "", ""))
  fields.map (fun f =>
    let backColor := backColorOf dbValue
    let dbValueString := padString ("" ++ inp.dbRendered) 6 ' '
    let outputTemp := padString f.1 22 ' '
    let outputHumidity := padString f.2.1 22 ' '
    let outputPressure := padString f.2.2.1 22 ' '
    let outputAltitude := padString f.2.2.2 22 ' '
    let outputLum := padString outputLum0 22 ' '
    { dbValue := dbValue
      backColor := backColor
      dbValueString := dbValueString
      outputTemp := outputTemp
      outputHumidity := outputHumidity
      outputPressure := outputPressure
      outputAltitude := outputAltitude
      outputLum := outputLum
      displayBlock :=
        outputTemp ++ "\r\n" ++ outputHumidity ++ "\r\n"
          ++ outputPressure ++ "\r\n" ++ outputLum
      serialLines :=
        ["DB: " ++ inp.dbRendered, outputTemp, outputHumidity,
         outputPressure, outputAltitude, outputLum] })

/-- The sketch after `setup()`: `g_bmeDetected` is assigned once (`init()`
is never called again) and `loop()` runs once per cycle with that same
flag; cycles share no other state. -/
def runCycles (detected : Int) (inputs : List LoopInputs) :
    List (Option LoopState) :=
  inputs.map (loopBody detected)

/-- Iteration count of `padString` exactly as typed in the sketch: signed
minimum length, converted to unsigned by the loop comparison. -/
def padStringItersC (s : String) (n : Int) (c : Char) : Nat :=
  padStringIters s (uintOfInt n) c

/-- A concrete cycle's inputs: the sound sample `2048` named by the spec's
end-to-end scenario, together with representative readings for the other
collaborators. -/
def sampleInputs2048 : LoopInputs where
  dbSample := 2048
  luminosity := 512
  tempReading := "21.50"
  humidityReading := "40.00"
  pressureReading := "1014.80"
  altitudeReading := "10.00"
  dbRendered := "82.50"

/-- Closed form of `padString`: append exactly the missing number of
copies of the padding character. -/
@[simp]
theorem padString_eq_append (s : String) (n : Nat) (c : Char) :
    padString s n c = ⟨s.data ++ List.replicate (n - s.length) c⟩ := by
  by_cases h : s.length < n
  · rw [padString]
    simp only [h, if_pos]
    rw [padString_eq_append (s.push c) n c]
    apply String.ext
    simp only [String.data_push, String.length_push]
    have hrep : List.replicate (n - s.length) c
        = c :: List.replicate (n - (s.length + 1)) c := by
      have : n - s.length = (n - (s.length + 1)) + 1 := by omega
      rw [this, List.replicate_succ]
    rw [hrep]
    simp
  · rw [padString]
    simp only [h, if_neg, not_false_iff]
    have : n - s.length = 0 := by omega
    apply String.ext
    simp [this]
termination_by n - s.length
decreasing_by simp only [String.length_push]; omega

/-- Closed form of the iteration count. -/
theorem padStringIters_eq (s : String) (n : Nat) (c : Char) :
    padStringIters s n c = n - s.length := by
  by_cases h : s.length < n
  · rw [padStringIters]
    simp only [h, if_pos]
    rw [padStringIters_eq (s.push c) n c]
    simp only [String.length_push]
    omega
  · rw [padStringIters]
    simp only [h, if_neg, not_false_iff]
    omega
termination_by n - s.length
decreasing_by simp only [String.length_push]; omega

/-- Length of a padded string: the maximum of the old length and the
requested minimum. -/
theorem padString_length (s : String) (n : Nat) (c : Char) :
    (padString s n c).length = max s.length n := by
  have hlen : s.length = s.data.length := rfl
  rw [padString_eq_append]
  rw [show (⟨s.data ++ List.replicate (n - s.length) c⟩ : String).length
      = (s.data ++ List.replicate (n - s.length) c).length from rfl]
  rw [List.length_append, List.length_replicate]
  omega

/-- C1: the level estimator returns `(s / ADCResolution * VREF) * 50.0`:
`getDecibelFromVoltage` agrees with the spec formula `spec_level` at the
board's resolution and reference voltage, the resolution is 4096 on
12-bit boards and 1024 otherwise, the reference voltage is 3.3, and the
multiplier is the fixed 50.0; the function is total, so every integer
sample yields a defined output with no error condition. -/
theorem C1_level_formula :
    (∀ (twelveBit : Bool) (sample : ℤ),
        getDecibelFromVoltage twelveBit sample
          = spec_level (ADCResolution twelveBit) VREF sample)
    ∧ ADCResolution true = 4096 ∧ ADCResolution false = 1024
    ∧ VREF = 33 / 10 ∧ DB_CONV_MULTIPLIER = 50 :=
  ⟨fun _ _ => rfl, rfl, rfl, rfl, rfl⟩

/-- C2: the severity classification is total and respects the stated
boundaries — `level < 75` gives Normal with a green background,
`75 ≤ level < 120` gives Elevated with an orange background,
`level ≥ 120` gives High with a red background; in particular
`classify 74.99 = Normal`, `classify 75 = Elevated`,
`classify 119.99 = Elevated` and `classify 120 = High`. -/
theorem C2_classification_total_and_boundaries :
    (∀ level : ℚ,
        (level < 75 →
          classify level = SeverityBand.Normal
            ∧ backColorOf level = COLOR_RGB565_GREEN)
        ∧ (75 ≤ level → level < 120 →
          classify level = SeverityBand.Elevated
            ∧ backColorOf level = COLOR_RGB565_ORANGE)
        ∧ (120 ≤ level →
          classify level = SeverityBand.High
            ∧ backColorOf level = COLOR_RGB565_RED))
    ∧ classify (7499 / 100) = SeverityBand.Normal
    ∧ classify 75 = SeverityBand.Elevated
    ∧ classify (11999 / 100) = SeverityBand.Elevated
    ∧ classify 120 = SeverityBand.High := by
  have hmain : ∀ level : ℚ,
      (level < 75 →
        classify level = SeverityBand.Normal
          ∧ backColorOf level = COLOR_RGB565_GREEN)
      ∧ (75 ≤ level → level < 120 →
        classify level = SeverityBand.Elevated
          ∧ backColorOf level = COLOR_RGB565_ORANGE)
      ∧ (120 ≤ level →
        classify level = SeverityBand.High
          ∧ backColorOf level = COLOR_RGB565_RED) := by
    intro level
    refine ⟨fun h => ?_, fun h1 h2 => ?_, fun h => ?_⟩ <;>
    · simp only [classify, backColorOf, THRESHOLD_MAX_GREEN, THRESHOLD_MAX_YELLOW]
      split_ifs with hA hB
      all_goals first
        | exact ⟨rfl, rfl⟩
        | (exfalso; rcases hA with ⟨hA1, hA2⟩; linarith)
        | (exfalso; linarith)
        | (exfalso; rw [not_and_or, not_le, not_lt] at hA
           rcases hA with hA | hA <;> linarith)
  exact ⟨hmain,
    ((hmain (7499 / 100)).1 (by norm_num)).1,
    ((hmain 75).2.1 (by norm_num) (by norm_num)).1,
    ((hmain (11999 / 100)).2.1 (by norm_num) (by norm_num)).1,
    ((hmain 120).2.2 (by norm_num)).1⟩

/-- Witness for C2 at the concrete level 80. -/
theorem C2_classification_total_and_boundaries_witness :
    (75 : ℚ) ≤ 80 ∧ (80 : ℚ) < 120
    ∧ (classify 80 = SeverityBand.Elevated
        ∧ backColorOf 80 = COLOR_RGB565_ORANGE) :=
  ⟨by norm_num, by norm_num,
    (C2_classification_total_and_boundaries.1 80).2.1 (by norm_num) (by norm_num)⟩

/-- C5: end-to-end at raw sample 2048 with the 12-bit resolution 4096,
reference voltage 3.3 and multiplier 50: the level is
(2048/4096·3.3)·50 = 82.5, it classifies as Elevated, and the background
color the loop hands to the decibel display is `COLOR_RGB565_ORANGE`. -/
theorem C5_end_to_end_2048 :
    getDecibelFromVoltage true 2048 = 82.5
    ∧ classify (getDecibelFromVoltage true 2048) = SeverityBand.Elevated
    ∧ backColorOf (getDecibelFromVoltage true 2048) = COLOR_RGB565_ORANGE
    ∧ (loopBody BME_SENSOR_DETECTED_SENTINEL sampleInputs2048).map
        (fun st => (st.dbValue, st.backColor))
      = some (82.5, COLOR_RGB565_ORANGE) := by
  have hval : getDecibelFromVoltage true 2048 = 82.5 := by
    norm_num [getDecibelFromVoltage, ADCResolution, VREF, DB_CONV_MULTIPLIER]
  have hclass : classify (82.5 : ℚ) = SeverityBand.Elevated := by
    simp only [classify, THRESHOLD_MAX_GREEN, THRESHOLD_MAX_YELLOW]
    norm_num
  have hcolor : backColorOf (82.5 : ℚ) = COLOR_RGB565_ORANGE := by
    simp only [backColorOf, THRESHOLD_MAX_GREEN, THRESHOLD_MAX_YELLOW]
    norm_num
  have hcolor2 : backColorOf ((165 : ℚ) / 2) = COLOR_RGB565_ORANGE := by
    rw [show ((165 : ℚ) / 2) = 82.5 by norm_num]
    exact hcolor
  refine ⟨hval, by rw [hval, hclass], by rw [hval, hcolor], ?_⟩
  simp only [loopBody, sampleInputs2048, BME_SENSOR_DETECTED_SENTINEL]
  norm_num [hval, hclass, hcolor, hcolor2, Option.map_some]

/-- C6: the sample-to-decibel conversion is monotonically non-decreasing
on the valid analog range: `s1 ≤ s2` implies the estimated level of `s1`
is at most the estimated level of `s2`, on either board resolution. -/
theorem C6_level_monotone (twelveBit : Bool) (s1 s2 : ℤ)
    (h0 : 0 ≤ s1) (h12 : s1 ≤ s2) (hmax : s2 ≤ 4095) :
    getDecibelFromVoltage twelveBit s1 ≤ getDecibelFromVoltage twelveBit s2 := by
  have hc : (s1 : ℚ) ≤ (s2 : ℚ) := by exact_mod_cast h12
  cases twelveBit <;>
  · unfold getDecibelFromVoltage ADCResolution VREF DB_CONV_MULTIPLIER
    norm_num
    linarith

/-- Witness for C6 at the concrete samples 100 ≤ 2048. -/
theorem C6_level_monotone_witness :
    (0 : ℤ) ≤ 100 ∧ (100 : ℤ) ≤ 2048 ∧ (2048 : ℤ) ≤ 4095
    ∧ getDecibelFromVoltage true 100 ≤ getDecibelFromVoltage true 2048 :=
  ⟨by norm_num, by norm_num, by norm_num,
    C6_level_monotone true 100 2048 (by norm_num) (by norm_num) (by norm_num)⟩

/-- C3: the formatter appends the padding character until the string's
length is ≥ the minimum, returns the string unchanged (never truncates)
when it is already long enough, and the result's length is always ≥ the
minimum and ≥ the original length; concretely
`padString "abc" 6 ' ' = "abc   "` (length 6) and
`padString "abcdefgh" 6 ' ' = "abcdefgh"` (unchanged). -/
theorem C3_pad_contract :
    (∀ (s : String) (n : Nat) (c : Char),
        (n ≤ s.length → padString s n c = s)
        ∧ n ≤ (padString s n c).length
        ∧ s.length ≤ (padString s n c).length)
    ∧ padString "abc" 6 ' ' = "abc   "
    ∧ (padString "abc" 6 ' ').length = 6
    ∧ padString "abcdefgh" 6 ' ' = "abcdefgh" := by
  have hunch : ∀ (s : String) (n : Nat) (c : Char),
      n ≤ s.length → padString s n c = s := by
    intro s n c h
    rw [padString]
    simp [Nat.not_lt.mpr h]
  refine ⟨fun s n c => ⟨hunch s n c, ?_, ?_⟩, ?_, ?_, hunch _ 6 ' ' (by decide)⟩
  · rw [padString_length]; omega
  · rw [padString_length]; omega
  · rw [padString_eq_append]; decide
  · rw [padString_length]; decide

/-- Witness for C3 at the concrete already-long-enough string. -/
theorem C3_pad_contract_witness :
    6 ≤ ("abcdefgh" : String).length
    ∧ padString "abcdefgh" 6 ' ' = "abcdefgh" :=
  ⟨by decide, (C3_pad_contract.1 "abcdefgh" 6 ' ').1 (by decide)⟩

/-- C7: padding is idempotent — applying the formatter twice with the same
minimum length and padding character gives the same result as applying it
once. -/
theorem C7_pad_idempotent (s : String) (n : Nat) (c : Char) :
    padString (padString s n c) n c = padString s n c := by
  have h : ¬ (padString s n c).length < n := by
    rw [padString_length]; omega
  conv_lhs => rw [padString]
  rw [if_neg h]

/-- C9: with a nonnegative minimum length the `padString` loop terminates,
executing exactly `max 0 (n − length s)` iterations (written
`(n − length s).toNat`, since `Int.toNat` truncates at zero); the
precondition is essential because the loop compares the unsigned
`length()` against the signed `p_length` after the usual-arithmetic
conversion of the latter to unsigned, so a negative minimum becomes a
value of at least 2³¹ and the loop condition still holds at every string
length below 2³¹ — beyond anything the device can hold, so the loop never
exits. -/
theorem C9_pad_termination (s : String) (n : Int) (c : Char) :
    (0 ≤ n → n < 2 ^ 31 →
      padStringItersC s n c = (n - (s.length : Int)).toNat)
    ∧ (-(2 ^ 31) ≤ n → n < 0 →
      ∀ len : Nat, len < 2 ^ 31 → len < uintOfInt n) := by
  have h32 : (2 : Int) ^ 32 = 4294967296 := by norm_num
  have h31 : (2 : Int) ^ 31 = 2147483648 := by norm_num
  constructor
  · intro h0 h1
    rw [h31] at h1
    unfold padStringItersC
    rw [padStringIters_eq]
    unfold uintOfInt
    rw [h32]
    omega
  · intro hlo hneg len hlen
    rw [h31] at hlo
    have h31n : (2 : Nat) ^ 31 = 2147483648 := by norm_num
    rw [h31n] at hlen
    unfold uintOfInt
    rw [h32]
    omega

/-- Witness for C9: 3 iterations pad a 2-character string to length 5, and
the converted bound of the negative minimum −1 exceeds the length 7. -/
theorem C9_pad_termination_witness :
    ((0 : Int) ≤ 5 ∧ (5 : Int) < 2 ^ 31 ∧ padStringItersC "ab" 5 ' ' = 3)
    ∧ ((-(2 ^ 31) : Int) ≤ -1 ∧ (-1 : Int) < 0 ∧ (7 : Nat) < 2 ^ 31
        ∧ 7 < uintOfInt (-1)) := by
  refine ⟨⟨by norm_num, by norm_num, ?_⟩,
    by norm_num, by norm_num, by norm_num, ?_⟩
  · rw [(C9_pad_termination "ab" 5 ' ').1 (by norm_num) (by norm_num)]
    decide
  · exact (C9_pad_termination "x" (-1) ' ').2 (by norm_num) (by norm_num)
      7 (by norm_num)

/-- C10: with a nonnegative minimum length the padded result is the
original string followed by exactly `max 0 (n − length s)` copies of the
padding character (written `(n − length s).toNat`), so the original
string is always a prefix of the result and nothing other than the
padding character is ever appended. -/
theorem C10_pad_exact (s : String) (n : Int) (c : Char)
    (h0 : 0 ≤ n) (h1 : n < 2 ^ 31) :
    padStringC s n c
      = ⟨s.data ++ List.replicate (n - (s.length : Int)).toNat c⟩
    ∧ s.data <+: (padStringC s n c).data := by
  have hu : uintOfInt n = n.toNat := by
    unfold uintOfInt
    have h32 : (2 : Int) ^ 32 = 4294967296 := by norm_num
    have h31 : (2 : Int) ^ 31 = 2147483648 := by norm_num
    rw [h32]
    rw [h31] at h1
    omega
  have heq : padStringC s n c
      = ⟨s.data ++ List.replicate (n - (s.length : Int)).toNat c⟩ := by
    unfold padStringC
    rw [padString_eq_append, hu]
    have hk : n.toNat - s.length = (n - (s.length : Int)).toNat := by omega
    rw [hk]
  refine ⟨heq, ?_⟩
  rw [heq]
  exact List.prefix_append _ _

/-- Witness for C10 at the spec's concrete example. -/
theorem C10_pad_exact_witness :
    (0 : Int) ≤ 6 ∧ (6 : Int) < 2 ^ 31
    ∧ padStringC "abc" 6 ' ' = "abc   " := by
  refine ⟨by norm_num, by norm_num, ?_⟩
  rw [(C10_pad_exact "abc" 6 ' ' (by norm_num) (by norm_num)).1]
  decide

/-- C4 (failing input: `g_bmeDetected = 2`, any init value ≠ 0x60 behaves
alike): the error branch evaluates `"Sensor error! " + g_bmeDetected` as
`const char* + int`, i.e. pointer arithmetic, so the temperature field
receives the suffix of the string literal starting at offset 2 —
`"nsor error! "` padded to 22 — and not an error message carrying the
sensor value (`"Sensor error! 2"` padded never appears).  The rest of the
branch matches the claim: humidity, pressure and altitude become empty
(22 spaces after padding) and the sound-level value, background color and
luminosity line are exactly those of the sensor-present cycle.  At the
typical absent-device read 255 the pointer leaves the literal entirely:
undefined behaviour, `none` in the model. -/
theorem C4_sensor_error_pointer_arith :
    (loopBody 2 sampleInputs2048).map (fun st => st.outputTemp)
      = some ("nsor error! " ++ "          ")
    ∧ (loopBody 2 sampleInputs2048).map (fun st => st.outputTemp)
      ≠ some (padString "Sensor error! 2" 22 ' ')
    ∧ (loopBody 2 sampleInputs2048).map
        (fun st => (st.outputHumidity, st.outputPressure, st.outputAltitude))
      = some ("                      ", "                      ",
              "                      ")
    ∧ (loopBody 2 sampleInputs2048).map
        (fun st => (st.dbValue, st.backColor, st.outputLum))
      = (loopBody BME_SENSOR_DETECTED_SENTINEL sampleInputs2048).map
        (fun st => (st.dbValue, st.backColor, st.outputLum))
    ∧ loopBody 255 sampleInputs2048 = none := by
  refine ⟨?_, ?_, ?_, rfl, ?_⟩
  · simp only [loopBody, sampleInputs2048, cstrPlusInt, SENSOR_ERROR_LITERAL,
      BME_SENSOR_DETECTED_SENTINEL]
    norm_num [padString_eq_append]
    decide
  · simp only [loopBody, sampleInputs2048, cstrPlusInt, SENSOR_ERROR_LITERAL,
      BME_SENSOR_DETECTED_SENTINEL]
    norm_num [padString_eq_append]
    decide
  · simp only [loopBody, sampleInputs2048, cstrPlusInt, SENSOR_ERROR_LITERAL,
      BME_SENSOR_DETECTED_SENTINEL]
    norm_num [padString_eq_append]
    decide
  · simp only [loopBody, sampleInputs2048, cstrPlusInt, SENSOR_ERROR_LITERAL,
      BME_SENSOR_DETECTED_SENTINEL]
    norm_num
    decide

/-- C8 counterexample (sensor-present cycle with altitude reading 10.00
and luminosity 512): the serial altitude line is not blank — it carries
label, value and unit like the others, only its place on the display was
disabled — and the last non-space character of the luminosity line is the
digit 2, so that line has no unit suffix. -/
theorem C8_serial_lines_counterexample :
    (loopBody BME_SENSOR_DETECTED_SENTINEL sampleInputs2048).map
        (fun st => st.serialLines)
      = some ["DB: 82.50",
              "  Temp:  21.50C" ++ "       ",
              "  RH:    40.00%" ++ "       ",
              "  Pres.: 1014.80hPa" ++ "   ",
              "  Alt.:  10.00m" ++ "       ",
              "  Lum.:  512" ++ "          "]
    ∧ ("  Alt.:  10.00m" ++ "       ") ≠ ""
    ∧ ("  Alt.:  10.00m" ++ "       ").data.any (fun ch => ch != ' ') = true
    ∧ (("  Lum.:  512" ++ "          ").data.filter
        (fun ch => ch != ' ')).getLast? = some '2' := by
  refine ⟨?_, by decide, by decide, by decide⟩
  simp only [loopBody, sampleInputs2048, BME_SENSOR_DETECTED_SENTINEL]
  norm_num [padString_eq_append]
  decide

/-- C8 (amended): every sensor-present cycle writes one serial line per
reading, in order: a decibel line `DB: <value>`, then the temperature,
humidity, pressure, altitude and luminosity lines, each padded to 22
characters; temperature, humidity, pressure and altitude carry
label+value+unit (the altitude line is populated like the others — only
its display was disabled), while the luminosity line carries the label
and the raw ADC value with no unit suffix. -/
theorem C8_serial_lines (inp : LoopInputs) :
    (loopBody BME_SENSOR_DETECTED_SENTINEL inp).map (fun st => st.serialLines)
      = some ["DB: " ++ inp.dbRendered,
              padString ("  Temp:  " ++ inp.tempReading ++ "C") 22 ' ',
              padString ("  RH:    " ++ inp.humidityReading ++ "%") 22 ' ',
              padString ("  Pres.: " ++ inp.pressureReading ++ "hPa") 22 ' ',
              padString ("  Alt.:  " ++ inp.altitudeReading ++ "m") 22 ' ',
              padString ("  Lum.:  " ++ toString inp.luminosity) 22 ' '] := rfl

end EnvironmentMeter
